import Mathlib

/-!
Verification of `src/ecommerce/static/js/views/enterprise_coupon_form_view.js`,
the `EnterpriseCouponFormView` Backbone form view.

JavaScript runtime values are shallowly embedded as the inductive `JSValue`;
operations that can throw (property access on `null`/`undefined`) return
`Except JSError`.  The Backbone model is an association list of attribute
names to values; the DOM state relevant to the view (the `disabled`
attribute of the catalog select control) and the console log are carried in
an explicit `ViewState`.
-/

set_option autoImplicit false

namespace EnterpriseCouponFormView

/-- A JavaScript runtime value: `undefined`, `null`, booleans, numbers,
strings, arrays and plain objects (association lists of fields). -/
inductive JSValue where
  | undefined : JSValue
  | null : JSValue
  | bool (b : Bool) : JSValue
  | num (n : Int) : JSValue
  | str (s : String) : JSValue
  | arr (elems : List JSValue) : JSValue
  | obj (fields : List (String × JSValue)) : JSValue

/-- A JavaScript exception.  The only kind this file can raise is a
`TypeError` from reading a property of `null` or `undefined`. -/
inductive JSError where
  | typeError (msg : String) : JSError
  deriving Repr, DecidableEq

/-- Property access `v.name`: throws `TypeError` on `null`/`undefined`,
looks the field up on objects (absent fields read as `undefined`), and
yields `undefined` on the other primitives (none of which has an `id` or
`name` own property). -/
def getProp : JSValue → String → Except JSError JSValue
  | .undefined, name =>
      .error (.typeError ("Cannot read properties of undefined (reading " ++ name ++ ")"))
  | .null, name =>
      .error (.typeError ("Cannot read properties of null (reading " ++ name ++ ")"))
  | .obj fields, name => .ok ((fields.lookup name).getD .undefined)
  | _, _ => .ok .undefined

/-- Underscore `_.isUndefined`. -/
def isUndefined : JSValue → Bool
  | .undefined => true
  | _ => false

/-- Underscore `_.isNull`. -/
def isNull : JSValue → Bool
  | .null => true
  | _ => false

/-- Underscore `_.isString`. -/
def isString : JSValue → Bool
  | .str _ => true
  | _ => false

/-- Underscore `_.isEmpty`: `null`/`undefined` are empty; strings and
arrays are empty iff their length is zero; objects are empty iff they have
no keys; numbers and booleans have no keys and count as empty. -/
def isEmpty : JSValue → Bool
  | .undefined => true
  | .null => true
  | .str s => s.length == 0
  | .arr elems => elems.isEmpty
  | .obj fields => fields.isEmpty
  | .bool _ => true
  | .num _ => true

/-- JavaScript strict equality `v === ''` against the empty-string
literal: true exactly when `v` is the string `''`. -/
def strictEqEmptyStr : JSValue → Bool
  | .str s => s == ""
  | _ => false

/-! ### The three binding transforms (`couponBindings`) -/

/-- The `onGet` of the `select[name=enterprise_customer]` binding:
`_.isUndefined(val) || _.isNull(val) ? '' : val.id`. -/
def enterpriseCustomerOnGet (val : JSValue) : Except JSError JSValue :=
  if isUndefined val || isNull val then .ok (.str "") else getProp val "id"

/-- The `onSet` of the `select[name=enterprise_customer]` binding: builds
`{id: val, name: <text of the selected option>}`.  The selected option's
text is a DOM input, passed here as a parameter. -/
def enterpriseCustomerOnSet (selectedOptionText : String) (val : JSValue) : JSValue :=
  .obj [("id", val), ("name", .str selectedOptionText)]

/-- The `onGet` of the `select[name=enterprise_customer_catalog]` binding:
`_.isUndefined(val) || _.isNull(val) ? '' : val`. -/
def enterpriseCustomerCatalogOnGet (val : JSValue) : JSValue :=
  if isUndefined val || isNull val then .str "" else val

/-- The `onSet` of the `select[name=enterprise_customer_catalog]` binding:
`!_.isEmpty(val) && _.isString(val) ? val : null`. -/
def enterpriseCustomerCatalogOnSet (val : JSValue) : JSValue :=
  if !(isEmpty val) && isString val then val else .null

/-- The `onSet` of the `input[name=notify_email]` binding:
`val === '' ? null : val`. -/
def notifyEmailOnSet (val : JSValue) : JSValue :=
  if strictEqEmptyStr val then .null else val

/-! ### The Backbone model -/

/-- A Backbone model's attribute hash: an association list from attribute
names to values, with at most one entry per key (JavaScript object keys
are unique; theorems that need this take it as a hypothesis). -/
abbrev Attributes := List (String × JSValue)

/-- Backbone `model.get(key)`: an absent attribute reads as `undefined`. -/
def modelGet (m : Attributes) (key : String) : JSValue :=
  (m.lookup key).getD .undefined

/-- Setting a single attribute: replace the entry for `key` if present,
otherwise append a new entry. -/
def modelSetOne (m : Attributes) (key : String) (v : JSValue) : Attributes :=
  match m with
  | [] => [(key, v)]
  | (k, w) :: rest => if k = key then (k, v) :: rest else (k, w) :: modelSetOne rest key v

/-- Backbone `model.set(attrs)` with an attribute hash: sets each key of
`attrs` on the model, in order. -/
def modelSet (m : Attributes) (attrs : Attributes) : Attributes :=
  attrs.foldl (fun acc kv => modelSetOne acc kv.1 kv.2) m

/-! ### Static view configuration -/

/-- One entry of the `voucherTypes` option list. -/
structure VoucherType where
  value : String
  label : String
  deriving Repr, DecidableEq

/-- The `voucherTypes` property of the view: four `{value, label}` pairs,
labels run through the `gettext` translation lookup. -/
def voucherTypes (gettext : String → String) : List VoucherType :=
  [ { value := "Single use",
      label := gettext "Can be used once by one customer" },
    { value := "Once per customer",
      label := gettext "Can be used once by multiple customers" },
    { value := "Multi-use",
      label := gettext "Can be used multiple times by multiple customers" },
    { value := "Multi-use-per-Customer",
      label := gettext "Can be used multiple times by one customer" } ]

/-! ### View state and the catalog fetch -/

/-- A `console.log` diagnostic emitted by the view, carrying the value it
interpolates into the message. -/
inductive LogEntry where
  | fetchingCatalogs (enterpriseCustomer : JSValue) : LogEntry
  | failedFetchCatalogs (customerName : JSValue) : LogEntry

/-- The `data` object passed to `enterprise_customer_catalogs.fetch`. -/
structure FetchRequest where
  data_enterprise_customer : JSValue

/-- The mutable state the view touches: the coupon model, the base view's
`_initAttributes` snapshot, the `disabled` attribute of the catalog select
control, the console log, and the `voucherTypes` list (carried so that
preservation of the static configuration is statable). -/
structure ViewState where
  model : Attributes
  initAttributes : Attributes
  catalogFieldDisabled : Bool
  log : List LogEntry
  voucherTypes : List VoucherType

/-- `toggleEnterpriseCatalogField(disable)`: sets or clears the `disabled`
attribute on `select[name=enterprise_customer_catalog]`. -/
def toggleEnterpriseCatalogField (disable : Bool) (s : ViewState) : ViewState :=
  { s with catalogFieldDisabled := disable }

/-- What the synchronous part of `fetchEnterpriseCustomerCatalogs` did:
either it dispatched a filtered fetch (carrying the captured
`enterpriseCustomer` closure variable and the request data), or it issued
no fetch. -/
inductive FetchStep where
  | issued (enterpriseCustomer : JSValue) (req : FetchRequest) : FetchStep
  | noFetch : FetchStep

/-- The synchronous body of `fetchEnterpriseCustomerCatalogs()`: reads
`enterprise_customer` from the model, reads its `.id` (which throws on
`null`/`undefined`), and if the id is non-empty logs and dispatches the
filtered fetch, otherwise disables the catalog field immediately. -/
def fetchEnterpriseCustomerCatalogs (s : ViewState) : Except JSError (ViewState × FetchStep) :=
  let enterpriseCustomer := modelGet s.model "enterprise_customer"
  match getProp enterpriseCustomer "id" with
  | .error e => .error e
  | .ok id =>
      if !(isEmpty id) then
        .ok ({ s with log := s.log ++ [.fetchingCatalogs (modelGet s.model "enterprise_customer")] },
             .issued enterpriseCustomer { data_enterprise_customer := id })
      else
        .ok (toggleEnterpriseCatalogField true s, .noFetch)

/-- The `success` continuation of the catalog fetch:
`self.toggleEnterpriseCatalogField(false)`. -/
def catalogFetchSuccess (s : ViewState) : ViewState :=
  toggleEnterpriseCatalogField false s

/-- The `error` continuation of the catalog fetch: logs
`'Failed to fetch catalogs for ' + enterpriseCustomer.name` (reading
`.name` on the captured closure variable) and disables the field. -/
def catalogFetchError (enterpriseCustomer : JSValue) (s : ViewState) :
    Except JSError ViewState :=
  match getProp enterpriseCustomer "name" with
  | .error e => .error e
  | .ok name =>
      .ok (toggleEnterpriseCatalogField true
            { s with log := s.log ++ [.failedFetchCatalogs name] })

/-- Outcome of the asynchronous catalog fetch. -/
inductive FetchOutcome where
  | success : FetchOutcome
  | error : FetchOutcome
  deriving Repr, DecidableEq

/-- The whole lifecycle of one `fetchEnterpriseCustomerCatalogs()` call:
the synchronous body followed, when a fetch was dispatched, by the
continuation chosen by the fetch outcome.  Also reports the request that
was issued, if any. -/
def runCatalogFetch (s : ViewState) (outcome : FetchOutcome) :
    Except JSError (ViewState × Option FetchRequest) :=
  match fetchEnterpriseCustomerCatalogs s with
  | .error e => .error e
  | .ok (s1, .issued ec req) =>
      match outcome with
      | .success => .ok (catalogFetchSuccess s1, some req)
      | .error =>
          match catalogFetchError ec s1 with
          | .error e => .error e
          | .ok s2 => .ok (s2, some req)
  | .ok (s1, .noFetch) => .ok (s1, none)

/-- `getEditableAttributes()`: returns a literal list of attribute names.
It is a method of the view (hence the `self` parameter) but reads nothing
from it. -/
def getEditableAttributes (_self : ViewState) : List String :=
  [ "benefit_value",
    "category",
    "end_date",
    "enterprise_customer",
    "enterprise_customer_catalog",
    "notify_email",
    "invoice_discount_type",
    "invoice_discount_value",
    "invoice_number",
    "invoice_payment_date",
    "invoice_type",
    "max_uses",
    "note",
    "price",
    "start_date",
    "tax_deducted_source",
    "title",
    "email_domains" ]

/-- `cancelButtonClicked()`: `this.model.set(this._initAttributes)`.  The
handler has no `return` statement, so its JavaScript return value is
`undefined`; the pair returns the updated state and that value. -/
def cancelButtonClicked (s : ViewState) : ViewState × JSValue :=
  ({ s with model := modelSet s.model s.initAttributes }, .undefined)

/-! ### Concrete states used to instantiate the theorems -/

/-- A state whose model has a non-empty enterprise customer id. -/
def fetchState : ViewState :=
  { model := [("enterprise_customer", .obj [("id", .str "abc"), ("name", .str "Acme")])],
    initAttributes := [],
    catalogFieldDisabled := true,
    log := [],
    voucherTypes := [] }

/-- `fetchState` after the synchronous part of a dispatched fetch. -/
def fetchedState1 : ViewState :=
  { fetchState with
      log := [LogEntry.fetchingCatalogs (.obj [("id", .str "abc"), ("name", .str "Acme")])] }

/-- A state whose model has `enterprise_customer` set to `null`. -/
def nullCustomerState : ViewState :=
  { model := [("enterprise_customer", .null)],
    initAttributes := [],
    catalogFieldDisabled := false,
    log := [],
    voucherTypes := [] }

/-- A state with an edited model and a differing initial snapshot. -/
def cancelState : ViewState :=
  { model := [("title", .str "edited"), ("note", .str "n")],
    initAttributes := [("title", .str "orig"), ("note", .str "n")],
    catalogFieldDisabled := false,
    log := [],
    voucherTypes := [] }

/-- A state whose model has an empty enterprise customer id. -/
def voucherState : ViewState :=
  { model := [("enterprise_customer", .obj [("id", .str "")])],
    initAttributes := [],
    catalogFieldDisabled := false,
    log := [],
    voucherTypes := voucherTypes id }

example : enterpriseCustomerCatalogOnSet (.str "") = .null := rfl
example : enterpriseCustomerCatalogOnSet (.str "abc") = .str "abc" := rfl
example : enterpriseCustomerCatalogOnSet (.num 5) = .null := rfl
example : notifyEmailOnSet (.str "") = .null := rfl
example : notifyEmailOnSet (.num 0) = .num 0 := rfl
example : enterpriseCustomerOnGet .null = .ok (.str "") := rfl
example : enterpriseCustomerOnGet (.obj [("id", .str "x")]) = .ok (.str "x") := rfl

/-! ### Lemmas about the attribute hash -/

theorem lookup_cons_ite (k k0 : String) (w : JSValue) (tl : List (String × JSValue)) :
    ((k0, w) :: tl).lookup k = if k = k0 then some w else tl.lookup k := by
  by_cases h : k = k0
  · rw [List.lookup_cons, show (k == k0) = true from beq_iff_eq.mpr h, if_pos h]
  · rw [List.lookup_cons, show (k == k0) = false from beq_eq_false_iff_ne.mpr h, if_neg h]

theorem lookup_modelSetOne (m : Attributes) (k k' : String) (v : JSValue) :
    (modelSetOne m k v).lookup k' = if k' = k then some v else m.lookup k' := by
  induction m with
  | nil => simp [modelSetOne, lookup_cons_ite]
  | cons hd tl ih =>
    obtain ⟨k0, w⟩ := hd
    by_cases h0 : k0 = k
    · subst h0
      by_cases h1 : k' = k0 <;>
        simp [modelSetOne, lookup_cons_ite, h1]
    · by_cases h1 : k' = k0
      · subst h1
        simp [modelSetOne, h0, lookup_cons_ite]
      · simp [modelSetOne, h0, lookup_cons_ite, h1, ih]

theorem lookup_modelSet_not_mem (attrs : Attributes) (m : Attributes) (k : String)
    (h : k ∉ attrs.map Prod.fst) :
    (modelSet m attrs).lookup k = m.lookup k := by
  induction attrs generalizing m with
  | nil => rfl
  | cons hd tl ih =>
    obtain ⟨k0, v0⟩ := hd
    simp only [List.map_cons, List.mem_cons, not_or] at h
    have step : modelSet m ((k0, v0) :: tl) = modelSet (modelSetOne m k0 v0) tl := rfl
    rw [step, ih (modelSetOne m k0 v0) h.2, lookup_modelSetOne, if_neg h.1]

theorem lookup_modelSet_mem (attrs : Attributes) (m : Attributes) (k : String) (v : JSValue)
    (hnd : (attrs.map Prod.fst).Nodup) (hk : attrs.lookup k = some v) :
    (modelSet m attrs).lookup k = some v := by
  induction attrs generalizing m with
  | nil => simp at hk
  | cons hd tl ih =>
    obtain ⟨k0, v0⟩ := hd
    simp only [List.map_cons, List.nodup_cons] at hnd
    have step : modelSet m ((k0, v0) :: tl) = modelSet (modelSetOne m k0 v0) tl := rfl
    by_cases h : k = k0
    · subst h
      rw [List.lookup_cons_self] at hk
      rw [step, lookup_modelSet_not_mem tl _ k hnd.1, lookup_modelSetOne, if_pos rfl]
      exact hk
    · rw [lookup_cons_ite, if_neg h] at hk
      rw [step]
      exact ih (modelSetOne m k0 v0) hnd.2 hk

/-! ### Lemmas about the catalog fetch -/

theorem getProp_ok_of_nonempty (ec v : JSValue) (name : String)
    (h : getProp ec "id" = .ok v) (hne : isEmpty v = false) :
    ∃ fields, ec = .obj fields ∧
      getProp ec name = .ok ((fields.lookup name).getD .undefined) := by
  cases ec with
  | undefined => simp [getProp] at h
  | null => simp [getProp] at h
  | obj fields => exact ⟨fields, rfl, rfl⟩
  | bool b =>
      simp only [getProp, Except.ok.injEq] at h
      rw [← h] at hne; simp [isEmpty] at hne
  | num n =>
      simp only [getProp, Except.ok.injEq] at h
      rw [← h] at hne; simp [isEmpty] at hne
  | str s =>
      simp only [getProp, Except.ok.injEq] at h
      rw [← h] at hne; simp [isEmpty] at hne
  | arr elems =>
      simp only [getProp, Except.ok.injEq] at h
      rw [← h] at hne; simp [isEmpty] at hne

theorem fetchECC_issued_inv (s s1 : ViewState) (ec : JSValue) (req : FetchRequest)
    (h : fetchEnterpriseCustomerCatalogs s = .ok (s1, .issued ec req)) :
    ec = modelGet s.model "enterprise_customer" ∧
    getProp ec "id" = .ok req.data_enterprise_customer ∧
    isEmpty req.data_enterprise_customer = false ∧
    s1 = { s with
            log := s.log ++ [.fetchingCatalogs (modelGet s.model "enterprise_customer")] } := by
  simp only [fetchEnterpriseCustomerCatalogs] at h
  split at h
  · cases h
  next id heq =>
    split at h
    next hcond =>
      cases h
      exact ⟨rfl, heq, by simpa using hcond, rfl⟩
    next hcond => cases h

theorem fetchECC_noFetch_inv (s s1 : ViewState)
    (h : fetchEnterpriseCustomerCatalogs s = .ok (s1, .noFetch)) :
    s1 = toggleEnterpriseCatalogField true s := by
  simp only [fetchEnterpriseCustomerCatalogs] at h
  split at h
  · cases h
  next id heq =>
    split at h
    next hcond => cases h
    next hcond => cases h; rfl

theorem isEmpty_str_false_of_ne (s : String) (h : s ≠ "") : isEmpty (.str s) = false := by
  simp only [isEmpty]
  rw [beq_eq_false_iff_ne]
  intro hlen
  apply h
  cases s with
  | mk data =>
    cases data with
    | nil => rfl
    | cons c cs => simp [String.length] at hlen

theorem fetchECC_ok_state (s s1 : ViewState) (step : FetchStep)
    (h : fetchEnterpriseCustomerCatalogs s = .ok (s1, step)) :
    s1.voucherTypes = s.voucherTypes ∧ s1.initAttributes = s.initAttributes ∧
      s1.model = s.model := by
  simp only [fetchEnterpriseCustomerCatalogs] at h
  split at h
  · cases h
  next id heq =>
    split at h <;> (cases h; exact ⟨rfl, rfl, rfl⟩)

theorem catalogFetchError_ok_state (ec : JSValue) (s s1 : ViewState)
    (h : catalogFetchError ec s = .ok s1) :
    s1.voucherTypes = s.voucherTypes ∧ s1.catalogFieldDisabled = true := by
  simp only [catalogFetchError] at h
  split at h
  · cases h
  next name heq => cases h; exact ⟨rfl, rfl⟩

theorem runCatalogFetch_ok_voucherTypes (s : ViewState) (outcome : FetchOutcome)
    (s2 : ViewState) (r : Option FetchRequest)
    (h : runCatalogFetch s outcome = .ok (s2, r)) :
    s2.voucherTypes = s.voucherTypes := by
  simp only [runCatalogFetch] at h
  split at h
  · cases h
  next s1 ec req heq =>
    cases outcome with
    | success =>
      cases h
      exact (fetchECC_ok_state s s1 _ heq).1
    | error =>
      cases herr : catalogFetchError ec s1 with
      | error e => rw [herr] at h; cases h
      | ok s2' =>
        rw [herr] at h
        cases h
        exact (catalogFetchError_ok_state ec s1 _ herr).1.trans
          (fetchECC_ok_state s s1 _ heq).1
  next s1 heq =>
    cases h
    exact (fetchECC_ok_state s _ _ heq).1

/-! ### The claims -/

/-- C1: for every value of the model's `enterprise_customer.id` (here `id`,
obtained by a successful property read), `fetchEnterpriseCustomerCatalogs()`
dispatches a fetch of the catalog collection filtered by that id if and only
if the id is non-empty; when the id is empty the catalog select control is
disabled immediately and no fetch is dispatched. -/
theorem fetch_filtered_iff_customer_id_nonempty (s : ViewState) (id : JSValue)
    (hid : getProp (modelGet s.model "enterprise_customer") "id" = .ok id) :
    ((∃ s1, fetchEnterpriseCustomerCatalogs s =
        .ok (s1, .issued (modelGet s.model "enterprise_customer")
                  { data_enterprise_customer := id })) ↔ isEmpty id = false) ∧
    (isEmpty id = true →
      fetchEnterpriseCustomerCatalogs s =
        .ok (toggleEnterpriseCatalogField true s, .noFetch) ∧
      (toggleEnterpriseCatalogField true s).catalogFieldDisabled = true) := by
  constructor
  · constructor
    · rintro ⟨s1, h⟩
      have hinv := fetchECC_issued_inv s s1 _ _ h
      exact hinv.2.2.1
    · intro hne
      refine ⟨{ s with
          log := s.log ++ [.fetchingCatalogs (modelGet s.model "enterprise_customer")] }, ?_⟩
      simp only [fetchEnterpriseCustomerCatalogs]
      rw [hid]
      simp [hne]
  · intro he
    refine ⟨?_, rfl⟩
    simp only [fetchEnterpriseCustomerCatalogs]
    rw [hid]
    simp [he]

/-- Witness for C1 at a model whose enterprise customer id is `"abc"`. -/
theorem fetch_filtered_iff_customer_id_nonempty_witness :
    ∃ s1, fetchEnterpriseCustomerCatalogs fetchState =
        .ok (s1, .issued (modelGet fetchState.model "enterprise_customer")
                  { data_enterprise_customer := .str "abc" }) :=
  ((fetch_filtered_iff_customer_id_nonempty fetchState (.str "abc") rfl).1).mpr rfl

/-- C9: `fetchEnterpriseCustomerCatalogs()` reads `.id` off the
`enterprise_customer` attribute before its emptiness check, so when that
attribute is `null` or `undefined` the call throws a `TypeError` instead of
taking the disable branch. -/
theorem fetch_typeError_on_null_or_undefined (s : ViewState)
    (h : modelGet s.model "enterprise_customer" = JSValue.null ∨
         modelGet s.model "enterprise_customer" = JSValue.undefined) :
    ∃ msg, fetchEnterpriseCustomerCatalogs s = .error (.typeError msg) := by
  rcases h with h | h
  · exact ⟨"Cannot read properties of null (reading id)", by
      simp only [fetchEnterpriseCustomerCatalogs]; rw [h]; rfl⟩
  · exact ⟨"Cannot read properties of undefined (reading id)", by
      simp only [fetchEnterpriseCustomerCatalogs]; rw [h]; rfl⟩

/-- Witness for C9 at a model whose `enterprise_customer` is `null`. -/
theorem fetch_typeError_witness :
    ∃ msg, fetchEnterpriseCustomerCatalogs nullCustomerState = .error (.typeError msg) :=
  fetch_typeError_on_null_or_undefined nullCustomerState (Or.inl rfl)

/-- C2: for every prior enabled/disabled state, once a catalog fetch was
dispatched, a `success` outcome leaves the control enabled and a `error`
outcome leaves it disabled with a diagnostic appended to the log; in both
cases the lifecycle completes without an exception. -/
theorem catalog_fetch_completion (s : ViewState) (outcome : FetchOutcome)
    (s1 : ViewState) (ec : JSValue) (req : FetchRequest)
    (h : fetchEnterpriseCustomerCatalogs s = .ok (s1, .issued ec req)) :
    ∃ s2, runCatalogFetch s outcome = .ok (s2, some req) ∧
      (outcome = .success → s2.catalogFieldDisabled = false ∧ s2.log = s1.log) ∧
      (outcome = .error → s2.catalogFieldDisabled = true ∧
        ∃ name, s2.log = s1.log ++ [.failedFetchCatalogs name]) := by
  obtain ⟨hec, hid, hne, hs1⟩ := fetchECC_issued_inv s s1 ec req h
  obtain ⟨fields, hobj, hname⟩ :=
    getProp_ok_of_nonempty ec req.data_enterprise_customer "name" hid hne
  cases outcome with
  | success =>
    refine ⟨catalogFetchSuccess s1, ?_, ?_, ?_⟩
    · simp only [runCatalogFetch, h]
    · intro _; exact ⟨rfl, rfl⟩
    · intro hco; cases hco
  | error =>
    refine ⟨toggleEnterpriseCatalogField true
        { s1 with
            log := s1.log ++ [.failedFetchCatalogs ((fields.lookup "name").getD .undefined)] },
      ?_, ?_, ?_⟩
    · simp only [runCatalogFetch, h, catalogFetchError, hname]
    · intro hco; cases hco
    · intro _; exact ⟨rfl, ⟨_, rfl⟩⟩

/-- Witness for C2 at a dispatched fetch that comes back with `error`. -/
theorem catalog_fetch_completion_witness :
    ∃ s2, runCatalogFetch fetchState .error =
        .ok (s2, some { data_enterprise_customer := JSValue.str "abc" }) ∧
      (FetchOutcome.error = FetchOutcome.success →
        s2.catalogFieldDisabled = false ∧ s2.log = fetchedState1.log) ∧
      (FetchOutcome.error = FetchOutcome.error →
        s2.catalogFieldDisabled = true ∧
        ∃ name, s2.log = fetchedState1.log ++ [.failedFetchCatalogs name]) :=
  catalog_fetch_completion fetchState .error fetchedState1
    (.obj [("id", .str "abc"), ("name", .str "Acme")])
    { data_enterprise_customer := .str "abc" } rfl

/-- C3: `cancelButtonClicked()` restores every attribute recorded in the
`_initAttributes` snapshot to its snapshot value exactly, whatever edits the
model received after construction, and its JavaScript return value is
`undefined`. -/
theorem cancel_restores_snapshot (s : ViewState)
    (hnd : (s.initAttributes.map Prod.fst).Nodup) :
    (∀ k v, s.initAttributes.lookup k = some v →
        modelGet ((cancelButtonClicked s).1).model k = v ∧
        modelGet s.initAttributes k = v) ∧
    (cancelButtonClicked s).2 = .undefined := by
  refine ⟨?_, rfl⟩
  intro k v hk
  constructor
  · show (List.lookup k (modelSet s.model s.initAttributes)).getD .undefined = v
    rw [lookup_modelSet_mem s.initAttributes s.model k v hnd hk]
    rfl
  · show (s.initAttributes.lookup k).getD .undefined = v
    rw [hk]
    rfl

/-- Witness for C3: the edit of `title` is discarded in favor of the
snapshot value. -/
theorem cancel_restores_snapshot_witness :
    modelGet ((cancelButtonClicked cancelState).1).model "title" = .str "orig" ∧
    modelGet cancelState.initAttributes "title" = .str "orig" :=
  (cancel_restores_snapshot cancelState (by decide)).1 "title" (.str "orig") rfl

/-- C4: the catalog binding's `onSet` maps the empty string and every
non-string input to `null`, maps every non-empty string to itself, and is
idempotent. -/
theorem catalog_onSet_spec (v : JSValue) (s : String) :
    enterpriseCustomerCatalogOnSet (.str "") = .null ∧
    (isString v = false → enterpriseCustomerCatalogOnSet v = .null) ∧
    (s ≠ "" → enterpriseCustomerCatalogOnSet (.str s) = .str s) ∧
    enterpriseCustomerCatalogOnSet (enterpriseCustomerCatalogOnSet v) =
      enterpriseCustomerCatalogOnSet v := by
  have hstr : ∀ t : String, t ≠ "" → enterpriseCustomerCatalogOnSet (.str t) = .str t := by
    intro t ht
    simp [enterpriseCustomerCatalogOnSet, isString, isEmpty_str_false_of_ne t ht]
  have hnonstr : ∀ w : JSValue, isString w = false →
      enterpriseCustomerCatalogOnSet w = .null := by
    intro w hw
    cases w <;>
      simp_all [enterpriseCustomerCatalogOnSet, isString, Bool.and_false]
  refine ⟨rfl, hnonstr v, hstr s, ?_⟩
  cases v with
  | str t =>
    by_cases ht : t = ""
    · subst ht; rfl
    · rw [hstr t ht, hstr t ht]
  | undefined => rfl
  | null => rfl
  | bool b => rfl
  | num n => rfl
  | arr elems =>
    rw [hnonstr (.arr elems) rfl]
    exact hnonstr .null rfl
  | obj fields =>
    rw [hnonstr (.obj fields) rfl]
    exact hnonstr .null rfl

/-- Witness for C4 at a non-string input and a non-empty string. -/
theorem catalog_onSet_spec_witness :
    enterpriseCustomerCatalogOnSet (.num 5) = .null ∧
    enterpriseCustomerCatalogOnSet (.str "catalog-uuid") = .str "catalog-uuid" :=
  ⟨(catalog_onSet_spec (.num 5) "x").2.1 rfl,
   (catalog_onSet_spec (.num 5) "catalog-uuid").2.2.1 (by decide)⟩

/-- C5: `getEditableAttributes()` is independent of the view's state and
always returns the same fixed ordered list of exactly 18 attribute names. -/
theorem editable_attributes_fixed (s1 s2 : ViewState) :
    getEditableAttributes s1 = getEditableAttributes s2 ∧
    (getEditableAttributes s1).length = 18 ∧
    getEditableAttributes s1 =
      ["benefit_value", "category", "end_date", "enterprise_customer",
       "enterprise_customer_catalog", "notify_email", "invoice_discount_type",
       "invoice_discount_value", "invoice_number", "invoice_payment_date",
       "invoice_type", "max_uses", "note", "price", "start_date",
       "tax_deducted_source", "title", "email_domains"] :=
  ⟨rfl, rfl, rfl⟩

/-- C6: the `notify_email` binding's `onSet` maps `''` to `null` and every
other string to itself unchanged. -/
theorem notify_email_onSet_spec (s : String) :
    notifyEmailOnSet (.str "") = .null ∧
    (s ≠ "" → notifyEmailOnSet (.str s) = .str s) := by
  refine ⟨rfl, ?_⟩
  intro hs
  have hb : (s == "") = false := beq_eq_false_iff_ne.mpr hs
  simp [notifyEmailOnSet, strictEqEmptyStr, hb]

/-- Witness for C6 at a non-empty email string. -/
theorem notify_email_onSet_witness :
    notifyEmailOnSet (.str "") = .null ∧
    notifyEmailOnSet (.str "a@b.example") = .str "a@b.example" :=
  ⟨(notify_email_onSet_spec "x").1,
   (notify_email_onSet_spec "a@b.example").2 (by decide)⟩

/-- C7: the `enterprise_customer` binding's `onGet` maps `undefined` and
`null` to the empty string and every other value to its `.id` property, and
its `onSet` builds `{id: selectedValue, name: selectedOptionText}`. -/
theorem enterprise_customer_binding_spec (v : JSValue) (t : String) (w : JSValue) :
    enterpriseCustomerOnGet .undefined = .ok (.str "") ∧
    enterpriseCustomerOnGet .null = .ok (.str "") ∧
    (v ≠ .undefined → v ≠ .null → enterpriseCustomerOnGet v = getProp v "id") ∧
    enterpriseCustomerOnSet t w = .obj [("id", w), ("name", .str t)] := by
  refine ⟨rfl, rfl, ?_, rfl⟩
  intro h1 h2
  cases v with
  | undefined => exact absurd rfl h1
  | null => exact absurd rfl h2
  | bool b => rfl
  | num n => rfl
  | str s => rfl
  | arr elems => rfl
  | obj fields => rfl

/-- Witness for C7 at a customer object. -/
theorem enterprise_customer_binding_witness :
    enterpriseCustomerOnGet (.obj [("id", .str "abc"), ("name", .str "Acme")]) =
      getProp (.obj [("id", .str "abc"), ("name", .str "Acme")]) "id" :=
  (enterprise_customer_binding_spec
      (.obj [("id", .str "abc"), ("name", .str "Acme")]) "t" .null).2.2.1
    (by intro h; cases h) (by intro h; cases h)

/-- C8: `voucherTypes` is the fixed ordered list of exactly four
`{value, label}` pairs, and no operation of the view changes it. -/
theorem voucher_types_static (g : String → String) (s : ViewState) (d : Bool)
    (outcome : FetchOutcome) :
    voucherTypes g =
      [ { value := "Single use", label := g "Can be used once by one customer" },
        { value := "Once per customer",
          label := g "Can be used once by multiple customers" },
        { value := "Multi-use",
          label := g "Can be used multiple times by multiple customers" },
        { value := "Multi-use-per-Customer",
          label := g "Can be used multiple times by one customer" } ] ∧
    (voucherTypes g).length = 4 ∧
    (toggleEnterpriseCatalogField d s).voucherTypes = s.voucherTypes ∧
    (catalogFetchSuccess s).voucherTypes = s.voucherTypes ∧
    ((cancelButtonClicked s).1).voucherTypes = s.voucherTypes ∧
    (∀ s1 step, fetchEnterpriseCustomerCatalogs s = .ok (s1, step) →
        s1.voucherTypes = s.voucherTypes) ∧
    (∀ ec s1, catalogFetchError ec s = .ok s1 → s1.voucherTypes = s.voucherTypes) ∧
    (∀ s2 r, runCatalogFetch s outcome = .ok (s2, r) →
        s2.voucherTypes = s.voucherTypes) := by
  refine ⟨rfl, rfl, rfl, rfl, rfl, ?_, ?_, ?_⟩
  · intro s1 step h
    exact (fetchECC_ok_state s s1 step h).1
  · intro ec s1 h
    exact (catalogFetchError_ok_state ec s s1 h).1
  · intro s2 r h
    exact runCatalogFetch_ok_voucherTypes s outcome s2 r h

/-- Witness for C8: a complete fetch lifecycle preserves the list. -/
theorem voucher_types_static_witness :
    (toggleEnterpriseCatalogField true voucherState).voucherTypes =
      voucherState.voucherTypes :=
  ((voucher_types_static id voucherState true .success).2.2.2.2.2.2.2)
    (toggleEnterpriseCatalogField true voucherState) none rfl

/-- C10: the `enterprise_customer` binding's `onSet` yields an object for
every input (including the empty string), never `null` or `undefined`; the
catalog binding, by contrast, maps empty input to `null`. -/
theorem enterprise_customer_onSet_never_nullish (t : String) (v : JSValue) :
    isNull (enterpriseCustomerOnSet t v) = false ∧
    isUndefined (enterpriseCustomerOnSet t v) = false ∧
    (∃ fields, enterpriseCustomerOnSet t v = .obj fields) ∧
    enterpriseCustomerCatalogOnSet (.str "") = .null :=
  ⟨rfl, rfl, ⟨[("id", v), ("name", .str t)], rfl⟩, rfl⟩

end EnterpriseCouponFormView
